import Mathlib

/-!
Shallow embedding of the 3DMatrixPlot scene builder.

The embedded code is the geometry core of src/components/Graph3D.tsx:
node placement per shape (rectangle, circle, triangle), intra-layer
outline edges, inter-layer bipartite edges with a cap, the layer-name
anchors, and the empty-layers guard, together with the data boundary of
src/services/dataService.ts that rejects payloads without layers.

Numbers are modelled as rationals.  The JavaScript Math library
(Math.PI, Math.cos, Math.sin, Math.sqrt(3)) is modelled by an explicit
record of parameters, so that properties depending on trigonometric
identities take those identities as hypotheses, and concrete witnesses
can instantiate the record with computable functions.
-/

/-- Model of the JS Math functions used by Graph3D: Math.PI, Math.cos,
Math.sin and Math.sqrt(3). -/
structure MathModel where
  pi : ℚ
  cos : ℚ → ℚ
  sin : ℚ → ℚ
  sqrt3 : ℚ

/-- A matrix layer, from src/types.ts plus the optional label, url and
edgeColor grids that Graph3D.tsx reads from a layer.  The shape is kept
as a string because the component dispatches on string comparison and
the JSON payload is not validated against the declared union type. -/
structure MatrixLayer where
  name : String
  rows : Nat
  cols : Nat
  values : List (List ℚ)
  labels : Option (List (List String)) := none
  urls : Option (List (List String)) := none
  shape : String
  color : Option String := none
  edgeColor : Option String := none

/-- The graph payload: an ordered list of layers (src/types.ts). -/
structure Graph3DData where
  layers : List MatrixLayer

/-- A computed scene node: position, cell value, optional label and
url, and the source cell of the node (Graph3D.tsx, layerNodes entries). -/
structure Node where
  x : ℚ
  y : ℚ
  z : ℚ
  val : ℚ
  label : Option String
  url : Option String
  r : Nat
  c : Nat

/-- The JS lookup values[r]?.[c] ?? 0. -/
def lookupCell (values : List (List ℚ)) (r c : Nat) : ℚ :=
  ((values[r]?).bind (fun row => row[c]?)).getD 0

/-- The JS lookup grid?.[r]?.[c] on an optional grid. -/
def lookupGrid (grid : Option (List (List String))) (r c : Nat) : Option String :=
  grid.bind (fun g => (g[r]?).bind (fun row => row[c]?))

/-- Planar offset of cell (r, c), Graph3D.tsx lines 36-51.  The three
recognized shapes get their formulas (unitSpacing 1.5 = 3/2, ring
spacing 1.2 = 6/5); any other shape tag falls through with x = y = 0. -/
def layoutXY (m : MathModel) (shape : String) (rows cols r c : Nat) : ℚ × ℚ :=
  if shape = "rectangle" then
    (((c : ℚ) - ((cols : ℚ) - 1) / 2) * (3 / 2),
     ((r : ℚ) - ((rows : ℚ) - 1) / 2) * (3 / 2))
  else if shape = "circle" then
    (((r : ℚ) + 1) * (6 / 5) * m.cos (2 * m.pi * (c : ℚ) / (cols : ℚ)),
     ((r : ℚ) + 1) * (6 / 5) * m.sin (2 * m.pi * (c : ℚ) / (cols : ℚ)))
  else if shape = "triangle" then
    (((c : ℚ) - (r : ℚ) / 2) * (3 / 2),
     (r : ℚ) * (m.sqrt3 / 2) * (3 / 2) - (rows : ℚ) * m.sqrt3 / 4)
  else (0, 0)

/-- The node pushed for cell (r, c) of the layer at index i
(Graph3D.tsx lines 53-59): planar offset from layoutXY, z from the
layer index and spacing, value with the missing-cell default 0, and
the optional label and url. -/
def nodeAt (m : MathModel) (zs : ℚ) (i : Nat) (L : MatrixLayer) (r c : Nat) : Node :=
  { x := (layoutXY m L.shape L.rows L.cols r c).1
  , y := (layoutXY m L.shape L.rows L.cols r c).2
  , z := (i : ℚ) * zs
  , val := lookupCell L.values r c
  , label := lookupGrid L.labels r c
  , url := lookupGrid L.urls r c
  , r := r
  , c := c }

/-- The double loop of Graph3D.tsx lines 34-61: the layer's nodes in
row-major order. -/
def buildLayerNodes (m : MathModel) (zs : ℚ) (i : Nat) (L : MatrixLayer) : List Node :=
  (List.range L.rows).flatMap (fun r =>
    (List.range L.cols).map (fun c => nodeAt m zs i L r c))

/-- getNode of Graph3D.tsx line 69: linear find by (r, c). -/
def getNode (ns : List Node) (r c : Nat) : Option Node :=
  ns.find? (fun n => n.r == r && n.c == c)

/-- The column index of the right neighbor, Graph3D.tsx line 77:
(c + 1) % cols for the circle shape, and (c + 1) % Infinity = c + 1
for every other shape. -/
def rightIndex (shape : String) (cols c : Nat) : Nat :=
  if shape = "circle" then (c + 1) % cols else c + 1

/-- Intra-layer outline edges, Graph3D.tsx lines 71-102: for each cell,
the right (or ring) neighbor, the lower neighbor, and for the triangle
shape the diagonal neighbor at (r + 1, c - 1).  In JS, c - 1 is -1 when
c = 0 and getNode then fails, hence the guard on c. -/
def intraEdges (ns : List Node) (shape : String) (rows cols : Nat) : List (Node × Node) :=
  (List.range rows).flatMap (fun r =>
    (List.range cols).flatMap (fun c =>
      match getNode ns r c with
      | none => []
      | some current =>
        (match getNode ns r (rightIndex shape cols c) with
         | some right => if shape = "circle" ∨ c + 1 < cols then [(current, right)] else []
         | none => [])
        ++ (match getNode ns (r + 1) c with
            | some down => [(current, down)]
            | none => [])
        ++ (if shape = "triangle" then
              if c = 0 then []
              else
                match getNode ns (r + 1) (c - 1) with
                | some diag => [(current, diag)]
                | none => []
            else [])))

/-- Inner loop of the inter-layer edge builder, Graph3D.tsx lines
169-176: walk the target nodes, breaking as soon as edgeCount exceeds
maxEdges, otherwise emitting the pair and incrementing the counter. -/
def innerLoop (maxEdges : Nat) (source : Node) :
    List Node → Nat → List (Node × Node) → Nat × List (Node × Node)
  | [], k, acc => (k, acc)
  | t :: ts, k, acc =>
    if maxEdges < k then (k, acc)
    else innerLoop maxEdges source ts (k + 1) (acc ++ [(source, t)])

/-- Outer loop of the inter-layer edge builder, Graph3D.tsx lines
162-177: the edge counter persists across source nodes. -/
def outerLoop (maxEdges : Nat) (sources targets : List Node) : List (Node × Node) :=
  (sources.foldl (fun st s => innerLoop maxEdges s targets st.1 st.2) (0, [])).2

/-- One inter-layer edge group per pair of consecutive layers,
Graph3D.tsx lines 155-193. -/
def interTraces (maxEdges : Nat) : List (List Node) → List (List (Node × Node))
  | [] => []
  | a :: rest =>
    match rest with
    | [] => []
    | b :: _ => outerLoop maxEdges a b :: interTraces maxEdges rest

/-- The allLayerNodes accumulation of Graph3D.tsx lines 29-62: node
lists per layer, indexed from i upward. -/
def buildAllLayerNodes (m : MathModel) (zs : ℚ) : Nat → List MatrixLayer → List (List Node)
  | _, [] => []
  | i, L :: Ls => buildLayerNodes m zs i L :: buildAllLayerNodes m zs (i + 1) Ls

/-- The intra-layer edge groups per layer, Graph3D.tsx lines 64-113. -/
def buildAllIntra (m : MathModel) (zs : ℚ) : Nat → List MatrixLayer → List (List (Node × Node))
  | _, [] => []
  | i, L :: Ls =>
    intraEdges (buildLayerNodes m zs i L) L.shape L.rows L.cols :: buildAllIntra m zs (i + 1) Ls

/-- The layer-name anchor traces, Graph3D.tsx lines 137-150: one text
anchor (name, z) per layer when showLayerNames is on. -/
def buildAnchors (zs : ℚ) : Nat → List MatrixLayer → List (String × ℚ)
  | _, [] => []
  | i, L :: Ls => (L.name, (i : ℚ) * zs) :: buildAnchors zs (i + 1) Ls

/-- The geometric content of the trace list Graph3D builds: nodes per
layer, intra-layer edge groups, layer-name anchors, inter-layer edge
groups, and whether node traces carry text (showLabels). -/
structure Scene where
  layerNodes : List (List Node)
  intra : List (List (Node × Node))
  anchors : List (String × ℚ)
  inter : List (List (Node × Node))
  textMode : Bool

/-- The scene assembled by the effect body of Graph3D.tsx (lines
23-194) once the guard has passed.  zSpacing is the hardcoded constant
4 of line 24; the inter-layer cap is the constant 500 of line 161. -/
def buildScene (m : MathModel) (data : Graph3DData)
    (showLabels showLayerNames showInterLayerEdges : Bool) : Scene :=
  { layerNodes := buildAllLayerNodes m 4 0 data.layers
  , intra := buildAllIntra m 4 0 data.layers
  , anchors := if showLayerNames then buildAnchors 4 0 data.layers else []
  , inter := if showInterLayerEdges then interTraces 500 (buildAllLayerNodes m 4 0 data.layers) else []
  , textMode := showLabels }

/-- The Graph3D effect, Graph3D.tsx lines 20-194: the guard of line 21
returns without building anything when layers is empty; otherwise the
scene is built.  The component declares no zSpacing prop; the value the
caller passes is modelled here as an explicit argument that the body
never reads, the spacing being the hardcoded constant 4. -/
def graph3DBuild (m : MathModel) (data : Graph3DData)
    (showLabels showLayerNames showInterLayerEdges : Bool) (zSpacingProp : ℚ) : Option Scene :=
  if data.layers.length = 0 then none
  else some (buildScene m data showLabels showLayerNames showInterLayerEdges)

/-- The GAS response shape of src/types.ts. -/
structure GASResponse where
  status : String
  data : Option Graph3DData
  message : Option String

/-- The message dataService.ts returns for a payload without layers. -/
def gasEmptyMessage : String :=
  "No valid matrix layers found in the spreadsheet. Please check your sheet names and schema."

/-- The payload handling of fetchDataFromGAS, dataService.ts lines
29-40: an error payload is passed through; a payload whose data or
layers is missing or empty becomes a structured error; anything else is
returned unchanged. -/
def processGASPayload (payload : GASResponse) : GASResponse :=
  if payload.status = "error" then payload
  else
    match payload.data with
    | none => { status := "error", data := none, message := some gasEmptyMessage }
    | some d =>
      if d.layers.length = 0 then { status := "error", data := none, message := some gasEmptyMessage }
      else payload

/-- The pair of source and target cells of an edge, forgetting the
geometry: used to state structural properties of the edge builders. -/
def cellEdges (es : List (Node × Node)) : List ((Nat × Nat) × (Nat × Nat)) :=
  es.map (fun p => ((p.1.r, p.1.c), (p.2.r, p.2.c)))

/-- Row-major index of a cell. -/
def cellIdx (cols : Nat) (rc : Nat × Nat) : Nat :=
  rc.1 * cols + rc.2

/-- The full bipartite pair list between two node lists, source-major:
the reference order against which the capped inter-layer builder is
compared. -/
def pairProduct (src tgt : List Node) : List (Node × Node) :=
  src.flatMap (fun s => tgt.map (fun t => (s, t)))

/-- The neighbor edges emitted for one cell, described directly on
cells: the ring or right neighbor, the lower neighbor, and for the
triangle shape the lower-left diagonal neighbor. -/
def cellNeighbors (L : MatrixLayer) (r c : Nat) : List ((Nat × Nat) × (Nat × Nat)) :=
  (if L.shape = "circle" then [((r, c), (r, (c + 1) % L.cols))]
   else if c + 1 < L.cols then [((r, c), (r, c + 1))] else [])
  ++ (if r + 1 < L.rows then [((r, c), (r + 1, c))] else [])
  ++ (if L.shape = "triangle" ∧ r + 1 < L.rows ∧ 0 < c then [((r, c), (r + 1, c - 1))] else [])

/-- The intra-layer adjacency of a layer, described directly on cells,
in row-major cell order. -/
def intraCellDescription (L : MatrixLayer) : List ((Nat × Nat) × (Nat × Nat)) :=
  (List.range L.rows).flatMap (fun r =>
    (List.range L.cols).flatMap (fun c => cellNeighbors L r c))

/-- A computable math model for witnesses: cos constantly 1 and sin
constantly 0 satisfy the circle identity cos² + sin² = 1. -/
def mTriv : MathModel :=
  { pi := 0, cos := fun _ => 1, sin := fun _ => 0, sqrt3 := 0 }

/-- Concrete 2x2 rectangle layer with a short second value row (cell
(0,1) missing) and a label grid, for witnesses. -/
def wLayerA : MatrixLayer :=
  { name := "A", rows := 2, cols := 2, values := [[1], [2, 3]]
  , labels := some [["a", "b"], ["c", "d"]], shape := "rectangle" }

/-- Concrete 1x2 triangle layer for witnesses. -/
def wLayerB : MatrixLayer :=
  { name := "B", rows := 1, cols := 2, values := [[5, 6]], shape := "triangle" }

/-- Concrete two-row, one-column circle layer for witnesses. -/
def wCirc : MatrixLayer :=
  { name := "R", rows := 2, cols := 1, values := [[1], [2]], shape := "circle" }

/-- Concrete one-row, two-column circle layer: the smallest ring on
which the wrap-around edge duplicates an existing edge. -/
def wCirc2 : MatrixLayer :=
  { name := "R2", rows := 1, cols := 2, values := [[1, 2]], shape := "circle" }

/-- Concrete 3x3 rectangle layer. -/
def wRect3 : MatrixLayer :=
  { name := "M", rows := 3, cols := 3
  , values := [[1, 2, 3], [4, 5, 6], [7, 8, 9]], shape := "rectangle" }

/-- Concrete layer with a shape tag outside the recognized set. -/
def wHex : MatrixLayer :=
  { name := "H", rows := 2, cols := 2, values := [[1, 2], [3, 4]], shape := "hexagon" }

/-- Concrete two-layer graph. -/
def wData2 : Graph3DData := { layers := [wLayerA, wLayerB] }

/-- Concrete graph of two 3x3 rectangle layers. -/
def wData33 : Graph3DData := { layers := [wRect3, wRect3] }

/-! ## Helper lemmas about the node builder -/

lemma length_flatMap_range_const {α : Type} (f : Nat → List α) (C : Nat)
    (h : ∀ r, (f r).length = C) (R : Nat) :
    ((List.range R).flatMap f).length = R * C := by
  induction R with
  | zero => simp
  | succ n ih => simp [List.range_succ, List.flatMap_append, ih, h, Nat.succ_mul]

lemma buildLayerNodes_length (m : MathModel) (zs : ℚ) (i : Nat) (L : MatrixLayer) :
    (buildLayerNodes m zs i L).length = L.rows * L.cols := by
  unfold buildLayerNodes
  exact length_flatMap_range_const _ _ (fun r => by simp) L.rows

lemma getElem?_grid {α : Type} (g : Nat → Nat → α) (C R r c : Nat)
    (hr : r < R) (hc : c < C) :
    ((List.range R).flatMap (fun r' => (List.range C).map (g r')))[r * C + c]? = some (g r c) := by
  induction R with
  | zero => omega
  | succ n ih =>
    rw [List.range_succ, List.flatMap_append]
    rcases Nat.lt_or_ge r n with h | h
    · rw [List.getElem?_append_left]
      · exact ih h
      · rw [length_flatMap_range_const _ C (fun r => by simp) n]
        calc r * C + c < r * C + C := by omega
          _ = (r + 1) * C := by ring
          _ ≤ n * C := Nat.mul_le_mul_right C h
    · have hrn : r = n := by omega
      subst hrn
      rw [List.getElem?_append_right]
      · rw [length_flatMap_range_const _ C (fun r => by simp) r]
        have hcc : r * C + c - r * C = c := by omega
        have hb : ([r] : List Nat).flatMap (fun r' => (List.range C).map (g r')) =
            (List.range C).map (g r) := by simp
        rw [hcc, hb, List.getElem?_map, List.getElem?_range hc]
        rfl
      · rw [length_flatMap_range_const _ C (fun r => by simp) r]
        omega

lemma buildLayerNodes_getElem? (m : MathModel) (zs : ℚ) (i : Nat) (L : MatrixLayer)
    (r c : Nat) (hr : r < L.rows) (hc : c < L.cols) :
    (buildLayerNodes m zs i L)[r * L.cols + c]? = some (nodeAt m zs i L r c) := by
  unfold buildLayerNodes
  exact getElem?_grid (nodeAt m zs i L) L.cols L.rows r c hr hc

lemma mem_buildLayerNodes {m : MathModel} {zs : ℚ} {i : Nat} {L : MatrixLayer} {n : Node} :
    n ∈ buildLayerNodes m zs i L ↔
      ∃ r, r < L.rows ∧ ∃ c, c < L.cols ∧ n = nodeAt m zs i L r c := by
  simp only [buildLayerNodes, List.mem_flatMap, List.mem_map, List.mem_range]
  constructor
  · rintro ⟨r, hr, c, hc, hn⟩
    exact ⟨r, hr, c, hc, hn.symm⟩
  · rintro ⟨r, hr, c, hc, hn⟩
    exact ⟨r, hr, c, hc, hn.symm⟩

lemma nodeAt_r (m : MathModel) (zs : ℚ) (i : Nat) (L : MatrixLayer) (r c : Nat) :
    (nodeAt m zs i L r c).r = r := rfl

lemma nodeAt_c (m : MathModel) (zs : ℚ) (i : Nat) (L : MatrixLayer) (r c : Nat) :
    (nodeAt m zs i L r c).c = c := rfl

/-! ## Helper lemmas about getNode -/

lemma find?_range_eq (c : Nat) (p : Nat → Bool) (hp : ∀ j, p j = true ↔ j = c) (C : Nat) :
    (List.range C).find? p = if c < C then some c else none := by
  induction C with
  | zero => simp
  | succ n ih =>
    rw [List.range_succ, List.find?_append, ih]
    by_cases h : c < n
    · rw [if_pos h, if_pos (by omega)]
      exact Option.or_some
    · rw [if_neg h]
      by_cases h2 : c = n
      · subst h2
        rw [if_pos (by omega)]
        simp [List.find?, (hp c).mpr rfl]
      · rw [if_neg (by omega)]
        have hpn : p n = false := by
          cases htf : p n
          · rfl
          · exact absurd ((hp n).mp htf).symm h2
        simp [List.find?, hpn]

lemma find?_grid (g : Nat → Nat → Node) (C r c : Nat)
    (hg : ∀ r' c', (g r' c').r = r' ∧ (g r' c').c = c') (R : Nat) :
    List.find? (fun n => n.r == r && n.c == c)
        ((List.range R).flatMap (fun r' => (List.range C).map (g r'))) =
      if r < R ∧ c < C then some (g r c) else none := by
  induction R with
  | zero => simp
  | succ n ih =>
    rw [List.range_succ, List.flatMap_append, List.find?_append, ih]
    have hblock : ([n] : List Nat).flatMap (fun r' => (List.range C).map (g r')) =
        (List.range C).map (g n) := by simp
    rw [hblock, List.find?_map]
    by_cases hc : c < C
    · by_cases hr : r < n
      · rw [if_pos ⟨hr, hc⟩, if_pos ⟨by omega, hc⟩]
        exact Option.or_some
      · rw [if_neg (fun h => hr h.1)]
        by_cases hrn : r = n
        · subst hrn
          rw [if_pos ⟨by omega, hc⟩]
          have hfind : List.find? ((fun n' => n'.r == r && n'.c == c) ∘ g r) (List.range C)
              = some c := by
            rw [find?_range_eq c _ (fun j => by
              simp [Function.comp, (hg r j).1, (hg r j).2]) C]
            rw [if_pos hc]
          rw [hfind]
          rfl
        · rw [if_neg (by omega)]
          have hfind : List.find? ((fun n' => n'.r == r && n'.c == c) ∘ g n) (List.range C)
              = none := by
            rw [List.find?_eq_none]
            intro j _
            simp [Function.comp, (hg n j).1, (hg n j).2]
            intro h
            exact absurd h.symm hrn
          rw [hfind]
          rfl
    · rw [if_neg (fun h => hc h.2), if_neg (fun h => hc h.2)]
      have hfind : List.find? ((fun n' => n'.r == r && n'.c == c) ∘ g n) (List.range C)
          = none := by
        rw [List.find?_eq_none]
        intro j hj
        simp only [List.mem_range] at hj
        simp [Function.comp, (hg n j).1, (hg n j).2]
        intro hjc
        omega
      rw [hfind]
      rfl

lemma getNode_buildLayerNodes (m : MathModel) (zs : ℚ) (i : Nat) (L : MatrixLayer)
    (r c : Nat) :
    getNode (buildLayerNodes m zs i L) r c =
      if r < L.rows ∧ c < L.cols then some (nodeAt m zs i L r c) else none := by
  unfold getNode buildLayerNodes
  exact find?_grid (nodeAt m zs i L) L.cols r c (fun r' c' => ⟨rfl, rfl⟩) L.rows

/-! ## Helper lemmas about the inter-layer edge loops -/

lemma innerLoop_eq (maxEdges : Nat) (s : Node) :
    ∀ (ts : List Node) (k : Nat) (acc : List (Node × Node)),
      innerLoop maxEdges s ts k acc =
        (k + min ts.length (maxEdges + 1 - k),
         acc ++ (ts.take (maxEdges + 1 - k)).map (fun t => (s, t))) := by
  intro ts
  induction ts with
  | nil => intro k acc; simp [innerLoop]
  | cons t ts ih =>
    intro k acc
    by_cases h : maxEdges < k
    · have h0 : maxEdges + 1 - k = 0 := by omega
      simp [innerLoop, h, h0]
    · have h1 : maxEdges + 1 - k = (maxEdges + 1 - (k + 1)) + 1 := by omega
      rw [innerLoop, if_neg h, ih]
      rw [h1, List.take_succ_cons]
      refine Prod.ext ?_ ?_
      · simp only [List.length_cons]
        omega
      · simp [List.append_assoc]

lemma foldl_innerLoop_eq (maxEdges : Nat) (tgt : List Node) :
    ∀ (src : List Node) (k : Nat) (acc : List (Node × Node)),
      src.foldl (fun st s => innerLoop maxEdges s tgt st.1 st.2) (k, acc) =
        (k + min (pairProduct src tgt).length (maxEdges + 1 - k),
         acc ++ (pairProduct src tgt).take (maxEdges + 1 - k)) := by
  intro src
  induction src with
  | nil => intro k acc; simp [pairProduct]
  | cons s ss ih =>
    intro k acc
    rw [List.foldl_cons]
    have hstep : innerLoop maxEdges s tgt (k, acc).1 (k, acc).2 =
        (k + min tgt.length (maxEdges + 1 - k),
         acc ++ (tgt.take (maxEdges + 1 - k)).map (fun t => (s, t))) := innerLoop_eq maxEdges s tgt k acc
    rw [hstep, ih]
    have hP : pairProduct (s :: ss) tgt = tgt.map (fun t => (s, t)) ++ pairProduct ss tgt := by
      simp [pairProduct]
    rw [hP]
    have hlen : (tgt.map (fun t => (s, t))).length = tgt.length := by simp
    refine Prod.ext ?_ ?_
    · simp only [List.length_append, hlen]
      omega
    · simp only []
      rw [List.take_append_eq_append_take, hlen, List.map_take]
      have harith : maxEdges + 1 - (k + min tgt.length (maxEdges + 1 - k)) =
          maxEdges + 1 - k - tgt.length := by omega
      rw [harith, List.append_assoc]

lemma outerLoop_eq (maxEdges : Nat) (src tgt : List Node) :
    outerLoop maxEdges src tgt = (pairProduct src tgt).take (maxEdges + 1) := by
  unfold outerLoop
  rw [foldl_innerLoop_eq]
  simp

lemma pairProduct_length (src tgt : List Node) :
    (pairProduct src tgt).length = src.length * tgt.length := by
  induction src with
  | nil => simp [pairProduct]
  | cons s ss ih =>
    have hP : pairProduct (s :: ss) tgt = tgt.map (fun t => (s, t)) ++ pairProduct ss tgt := by
      simp [pairProduct]
    rw [hP]
    simp only [List.length_append, List.length_map, ih, List.length_cons, Nat.succ_mul]
    omega

lemma outerLoop_length (maxEdges : Nat) (src tgt : List Node) :
    (outerLoop maxEdges src tgt).length = min (src.length * tgt.length) (maxEdges + 1) := by
  rw [outerLoop_eq, List.length_take, pairProduct_length]
  omega

lemma interTraces_getElem? (cap : Nat) :
    ∀ (ls : List (List Node)) (i : Nat) (a b : List Node),
      ls[i]? = some a → ls[i + 1]? = some b →
      (interTraces cap ls)[i]? = some (outerLoop cap a b) := by
  intro ls
  induction ls with
  | nil => intro i a b ha _; simp at ha
  | cons x rest ih =>
    intro i a b ha hb
    cases rest with
    | nil =>
      rcases i with _ | j
      · simp at hb
      · simp at ha
    | cons y rest2 =>
      rcases i with _ | j
      · simp only [List.getElem?_cons_zero] at ha
        simp only [List.getElem?_cons_succ, List.getElem?_cons_zero] at hb
        cases ha; cases hb
        simp [interTraces]
      · rw [List.getElem?_cons_succ] at ha hb
        have h2 := ih j a b ha hb
        rw [show interTraces cap (x :: y :: rest2) =
          outerLoop cap x y :: interTraces cap (y :: rest2) from rfl]
        rw [List.getElem?_cons_succ]
        exact h2

lemma buildAllLayerNodes_getElem? (m : MathModel) (zs : ℚ) :
    ∀ (Ls : List MatrixLayer) (k j : Nat),
      (buildAllLayerNodes m zs k Ls)[j]? =
        (Ls[j]?).map (fun L => buildLayerNodes m zs (k + j) L) := by
  intro Ls
  induction Ls with
  | nil => intro k j; simp [buildAllLayerNodes]
  | cons L Ls ih =>
    intro k j
    rcases j with _ | j
    · simp [buildAllLayerNodes]
    · simp only [buildAllLayerNodes, List.getElem?_cons_succ, ih (k + 1) j]
      have : k + 1 + j = k + (j + 1) := by omega
      rw [this]

lemma buildAllLayerNodes_length (m : MathModel) (zs : ℚ) :
    ∀ (Ls : List MatrixLayer) (k : Nat), (buildAllLayerNodes m zs k Ls).length = Ls.length := by
  intro Ls
  induction Ls with
  | nil => intro k; simp [buildAllLayerNodes]
  | cons L Ls ih => intro k; simp [buildAllLayerNodes, ih]

/-! ## Claim theorems -/

/-- C1: for every layer at index i built with spacing zSpacing, the
node builder emits exactly rows times cols nodes, in row-major order
over (r, c): the node at row-major position r * cols + c carries
z = i * zSpacing, value = values[r][c] with default 0 when the cell is
missing, and label and url taken from the optional parallel grids. -/
theorem c1_layer_node_builder (m : MathModel) (zs : ℚ) (i : Nat) (L : MatrixLayer)
    (r c : Nat) (hr : r < L.rows) (hc : c < L.cols) :
    (buildLayerNodes m zs i L).length = L.rows * L.cols ∧
    (buildLayerNodes m zs i L)[r * L.cols + c]? =
      some { x := (layoutXY m L.shape L.rows L.cols r c).1
           , y := (layoutXY m L.shape L.rows L.cols r c).2
           , z := (i : ℚ) * zs
           , val := lookupCell L.values r c
           , label := lookupGrid L.labels r c
           , url := lookupGrid L.urls r c
           , r := r
           , c := c } :=
  ⟨buildLayerNodes_length m zs i L, buildLayerNodes_getElem? m zs i L r c hr hc⟩

/-- Witness for C1 at the 2x2 rectangle layer wLayerA, cell (0, 1). -/
theorem c1_witness :
    0 < wLayerA.rows ∧ 1 < wLayerA.cols ∧
    ((buildLayerNodes mTriv 4 0 wLayerA).length = wLayerA.rows * wLayerA.cols ∧
     (buildLayerNodes mTriv 4 0 wLayerA)[0 * wLayerA.cols + 1]? =
       some { x := (layoutXY mTriv wLayerA.shape wLayerA.rows wLayerA.cols 0 1).1
            , y := (layoutXY mTriv wLayerA.shape wLayerA.rows wLayerA.cols 0 1).2
            , z := (0 : ℚ) * 4
            , val := lookupCell wLayerA.values 0 1
            , label := lookupGrid wLayerA.labels 0 1
            , url := lookupGrid wLayerA.urls 0 1
            , r := 0
            , c := 1 }) :=
  ⟨by decide, by decide, c1_layer_node_builder mTriv 4 0 wLayerA 0 1 (by decide) (by decide)⟩

/-- C2: for every pair of consecutive layers, with the inter-layer
toggle on, the builder emits exactly min(R1C1 * R2C2, cap + 1) edges
(cap = 500), and the emitted edges are precisely the first cap + 1
pairs of the row-major source-then-target enumeration, so the earliest
row-major pairs are always the ones kept; with the toggle off, no
inter-layer edges are produced at all. -/
theorem c2_inter_layer_edges (m : MathModel) (d : Graph3DData) (sl sn : Bool) (zp : ℚ)
    (i : Nat) (L1 L2 : MatrixLayer)
    (h1 : d.layers[i]? = some L1) (h2 : d.layers[i + 1]? = some L2) :
    (∃ sc, graph3DBuild m d sl sn true zp = some sc ∧
      sc.inter[i]? = some ((pairProduct (buildLayerNodes m 4 i L1)
          (buildLayerNodes m 4 (i + 1) L2)).take 501) ∧
      (sc.inter[i]?).map List.length =
        some (min (L1.rows * L1.cols * (L2.rows * L2.cols)) 501)) ∧
    (∀ sc', graph3DBuild m d sl sn false zp = some sc' → sc'.inter = []) := by
  have hi : i < d.layers.length := by
    obtain ⟨h, _⟩ := List.getElem?_eq_some.mp h1
    exact h
  have hne : ¬ d.layers.length = 0 := by omega
  have ha : (buildAllLayerNodes m 4 0 d.layers)[i]? = some (buildLayerNodes m 4 i L1) := by
    rw [buildAllLayerNodes_getElem? m 4 d.layers 0 i, h1]
    simp
  have hb : (buildAllLayerNodes m 4 0 d.layers)[i + 1]? =
      some (buildLayerNodes m 4 (i + 1) L2) := by
    rw [buildAllLayerNodes_getElem? m 4 d.layers 0 (i + 1), h2]
    simp
  constructor
  · refine ⟨buildScene m d sl sn true, ?_, ?_, ?_⟩
    · unfold graph3DBuild
      rw [if_neg hne]
    · show (buildScene m d sl sn true).inter[i]? = _
      unfold buildScene
      simp only [if_pos]
      rw [interTraces_getElem? 500 (buildAllLayerNodes m 4 0 d.layers) i _ _ ha hb]
      rw [outerLoop_eq]
    · show ((buildScene m d sl sn true).inter[i]?).map List.length = _
      unfold buildScene
      simp only [if_pos]
      rw [interTraces_getElem? 500 (buildAllLayerNodes m 4 0 d.layers) i _ _ ha hb]
      simp only [Option.map_some']
      rw [outerLoop_length, buildLayerNodes_length, buildLayerNodes_length]
  · intro sc' hsc'
    unfold graph3DBuild at hsc'
    rw [if_neg hne] at hsc'
    have : buildScene m d sl sn false = sc' := Option.some.inj hsc'
    rw [← this]
    unfold buildScene
    simp

/-- Witness for C2 at a graph of two 3x3 rectangle layers, pair index 0. -/
theorem c2_witness :
    wData33.layers[0]? = some wRect3 ∧ wData33.layers[0 + 1]? = some wRect3 ∧
    ((∃ sc, graph3DBuild mTriv wData33 false false true 4 = some sc ∧
      sc.inter[0]? = some ((pairProduct (buildLayerNodes mTriv 4 0 wRect3)
          (buildLayerNodes mTriv 4 (0 + 1) wRect3)).take 501) ∧
      (sc.inter[0]?).map List.length =
        some (min (wRect3.rows * wRect3.cols * (wRect3.rows * wRect3.cols)) 501)) ∧
    (∀ sc', graph3DBuild mTriv wData33 false false false 4 = some sc' → sc'.inter = [])) :=
  ⟨rfl, rfl, c2_inter_layer_edges mTriv wData33 false false 4 0 wRect3 wRect3 rfl rfl⟩

/-! ## Helper lemmas about the intra-layer edge builder -/

lemma flatMapCongr {α β : Type} {l : List α} {f g : α → List β}
    (h : ∀ a ∈ l, f a = g a) : l.flatMap f = l.flatMap g := by
  induction l with
  | nil => rfl
  | cons x xs ih =>
    simp only [List.flatMap_cons]
    rw [h x (by simp), ih (fun a ha => h a (by simp [ha]))]

lemma cellEdges_intraEdges (m : MathModel) (zs : ℚ) (i : Nat) (L : MatrixLayer) :
    cellEdges (intraEdges (buildLayerNodes m zs i L) L.shape L.rows L.cols) =
      intraCellDescription L := by
  unfold cellEdges intraEdges intraCellDescription
  rw [List.map_flatMap]
  apply flatMapCongr
  intro r hr
  rw [List.map_flatMap]
  apply flatMapCongr
  intro c hc
  simp only [List.mem_range] at hr hc
  have hcols : 0 < L.cols := by omega
  have hmod : (c + 1) % L.cols < L.cols := Nat.mod_lt _ hcols
  by_cases hsh : L.shape = "circle"
  · have htri : L.shape ≠ "triangle" := by rw [hsh]; decide
    by_cases hd : r + 1 < L.rows <;>
      simp [cellNeighbors, rightIndex, getNode_buildLayerNodes, nodeAt,
        hsh, htri, hd, hr, hc, hmod]
  · by_cases htri : L.shape = "triangle"
    · by_cases hc0 : c = 0
      · subst hc0
        by_cases hlt : 1 < L.cols <;> by_cases hd : r + 1 < L.rows <;>
          simp [cellNeighbors, rightIndex, getNode_buildLayerNodes, nodeAt,
            hsh, htri, hlt, hd, hr, hc]
      · have hc0p : 0 < c := by omega
        have hcm1 : c - 1 < L.cols := by omega
        by_cases hlt : c + 1 < L.cols <;> by_cases hd : r + 1 < L.rows <;>
          simp [cellNeighbors, rightIndex, getNode_buildLayerNodes, nodeAt,
            hsh, htri, hlt, hd, hr, hc, hc0, hc0p, hcm1]
    · by_cases hlt : c + 1 < L.cols <;> by_cases hd : r + 1 < L.rows <;>
        simp [cellNeighbors, rightIndex, getNode_buildLayerNodes, nodeAt,
          hsh, htri, hlt, hd, hr, hc]

lemma mem_cellNeighbors_src {L : MatrixLayer} {r c : Nat}
    {p : (Nat × Nat) × (Nat × Nat)} (hp : p ∈ cellNeighbors L r c) : p.1 = (r, c) := by
  unfold cellNeighbors at hp
  rcases List.mem_append.mp hp with hp1 | hp3
  · rcases List.mem_append.mp hp1 with hp1 | hp2
    · split_ifs at hp1 <;> simp_all
    · split_ifs at hp2 <;> simp_all
  · split_ifs at hp3 <;> simp_all

lemma mem_cellNeighbors_cases {L : MatrixLayer} {r c : Nat}
    {p : (Nat × Nat) × (Nat × Nat)} (hp : p ∈ cellNeighbors L r c) :
    p.2 = (r, (c + 1) % L.cols) ∧ L.shape = "circle" ∨
    p.2 = (r, c + 1) ∧ c + 1 < L.cols ∧ L.shape ≠ "circle" ∨
    p.2 = (r + 1, c) ∧ r + 1 < L.rows ∨
    p.2 = (r + 1, c - 1) ∧ L.shape = "triangle" ∧ r + 1 < L.rows ∧ 0 < c := by
  unfold cellNeighbors at hp
  rcases List.mem_append.mp hp with hp1 | hp3
  · rcases List.mem_append.mp hp1 with hp1 | hp2
    · split_ifs at hp1 <;> simp_all
    · split_ifs at hp2 <;> simp_all
  · split_ifs at hp3 <;> simp_all

lemma cellNeighbors_nodup (L : MatrixLayer) (r c : Nat) : (cellNeighbors L r c).Nodup := by
  unfold cellNeighbors
  split_ifs <;> simp_all <;> omega

lemma flatMap_range_nodup {α : Type} [DecidableEq α] (f : Nat → List α) (n : Nat)
    (hnd : ∀ i, i < n → (f i).Nodup)
    (hdisj : ∀ i j, i < n → j < n → i ≠ j → (f i).Disjoint (f j)) :
    ((List.range n).flatMap f).Nodup := by
  rw [List.nodup_flatMap]
  constructor
  · intro i hi
    exact hnd i (List.mem_range.mp hi)
  · refine List.Pairwise.imp_of_mem ?_ (List.pairwise_lt_range n)
    intro i j hi hj hlt
    exact hdisj i j (List.mem_range.mp hi) (List.mem_range.mp hj) (by omega)

lemma intraCellDescription_nodup (L : MatrixLayer) : (intraCellDescription L).Nodup := by
  unfold intraCellDescription
  apply flatMap_range_nodup
  · intro r _
    apply flatMap_range_nodup
    · intro c _
      exact cellNeighbors_nodup L r c
    · intro c1 c2 _ _ hne p hp1 hp2
      have e1 := mem_cellNeighbors_src hp1
      have e2 := mem_cellNeighbors_src hp2
      rw [e1] at e2
      exact hne (congrArg Prod.snd e2)
  · intro r1 r2 _ _ hne p hp1 hp2
    obtain ⟨c1, _, hm1⟩ := List.mem_flatMap.mp hp1
    obtain ⟨c2, _, hm2⟩ := List.mem_flatMap.mp hp2
    have e1 := mem_cellNeighbors_src hm1
    have e2 := mem_cellNeighbors_src hm2
    rw [e1] at e2
    exact hne (congrArg Prod.fst e2)

lemma intraCellDescription_orient {L : MatrixLayer} (hsh : L.shape ≠ "circle")
    {p : (Nat × Nat) × (Nat × Nat)} (hp : p ∈ intraCellDescription L) :
    cellIdx L.cols p.1 < cellIdx L.cols p.2 := by
  unfold intraCellDescription at hp
  obtain ⟨r, hr, hm⟩ := List.mem_flatMap.mp hp
  obtain ⟨c, hcm, hm2⟩ := List.mem_flatMap.mp hm
  simp only [List.mem_range] at hr hcm
  have hsrc := mem_cellNeighbors_src hm2
  rcases mem_cellNeighbors_cases hm2 with ⟨ht, hcirc⟩ | ⟨ht, hlt, _⟩ | ⟨ht, hd⟩ |
      ⟨ht, htri, hd, hc0⟩
  · exact absurd hcirc hsh
  · rw [hsrc, ht]
    simp [cellIdx]
  · rw [hsrc, ht]
    simp only [cellIdx, Nat.succ_mul]
    omega
  · rw [hsrc, ht]
    simp only [cellIdx, Nat.succ_mul]
    omega

lemma flatMapSingletonMap {α β : Type} (l : List α) (g : α → β) :
    l.flatMap (fun a => [g a]) = l.map g := by
  induction l with
  | nil => rfl
  | cons x xs ih => simp [ih]

lemma intraEdges_length (m : MathModel) (zs : ℚ) (i : Nat) (L : MatrixLayer) :
    (intraEdges (buildLayerNodes m zs i L) L.shape L.rows L.cols).length =
      (intraCellDescription L).length := by
  rw [← cellEdges_intraEdges m zs i L]
  simp [cellEdges]

/-- C3 counterexample: on the circle layer with one row and two
columns, the wrap-around right edge of cell (0,1) duplicates the right
edge of cell (0,0), so the undirected edge between (0,0) and (0,1) is
emitted twice, not exactly once. -/
theorem c3_counterexample :
    (cellEdges (intraEdges (buildLayerNodes mTriv 4 0 wCirc2)
        wCirc2.shape wCirc2.rows wCirc2.cols)).countP
      (fun p => p == ((0, 0), (0, 1)) || p == ((0, 1), (0, 0))) = 2 := by
  decide

/-- C3 amended: the intra-layer edge builder emits, for each cell
(r, c), the right neighbor at (c + 1) mod cols for the circle shape and
at c + 1 (only when c + 1 < cols) otherwise, the lower neighbor
(r + 1, c) when it exists, and for the triangle shape the diagonal
neighbor (r + 1, c - 1) when it exists (this is the first conjunct,
the full characterization of the emitted edge list on cells); the
emitted list never repeats an ordered pair of cells; and for every
shape other than circle each edge goes from the lower-indexed cell to
the higher-indexed one and its reversal is never emitted, so each
undirected edge is emitted exactly once from the lower-indexed cell.
For the circle shape the wrap edge is emitted from the higher-indexed
cell, and when cols = 2 the same undirected ring edge is emitted twice
(and when cols = 1 as a self-loop). -/
theorem c3_amended (m : MathModel) (zs : ℚ) (i : Nat) (L : MatrixLayer) :
    cellEdges (intraEdges (buildLayerNodes m zs i L) L.shape L.rows L.cols) =
      intraCellDescription L ∧
    (intraCellDescription L).Nodup ∧
    (L.shape ≠ "circle" →
      ∀ p ∈ intraCellDescription L,
        cellIdx L.cols p.1 < cellIdx L.cols p.2 ∧ (p.2, p.1) ∉ intraCellDescription L) := by
  refine ⟨cellEdges_intraEdges m zs i L, intraCellDescription_nodup L, ?_⟩
  intro hsh p hp
  refine ⟨intraCellDescription_orient hsh hp, ?_⟩
  intro hswap
  have h1 := intraCellDescription_orient hsh hp
  have h2 : cellIdx L.cols p.2 < cellIdx L.cols p.1 := intraCellDescription_orient hsh hswap
  omega

/-- Witness for C3 amended at the rectangle layer wLayerA. -/
theorem c3_witness :
    wLayerA.shape ≠ "circle" ∧
    ∀ p ∈ intraCellDescription wLayerA,
      cellIdx wLayerA.cols p.1 < cellIdx wLayerA.cols p.2 ∧
        (p.2, p.1) ∉ intraCellDescription wLayerA :=
  ⟨by decide, (c3_amended mTriv 4 0 wLayerA).2.2 (by decide)⟩

/-- C10: for a circle-shaped layer with a single column, the
wrap-around right-neighbor index (c + 1) mod cols is the cell itself,
and the intra-layer edge builder emits exactly one degenerate
self-loop edge per row: the self-loop edges of the emitted list are
exactly one at cell (r, 0) for each row r. -/
theorem c10_self_loops (m : MathModel) (zs : ℚ) (i : Nat) (L : MatrixLayer)
    (hsh : L.shape = "circle") (hcols : L.cols = 1) :
    rightIndex L.shape L.cols 0 = 0 ∧
    (cellEdges (intraEdges (buildLayerNodes m zs i L) L.shape L.rows L.cols)).filter
        (fun p => p.1 == p.2) =
      (List.range L.rows).map (fun r => ((r, 0), (r, 0))) := by
  refine ⟨by simp [rightIndex, hsh, hcols], ?_⟩
  rw [cellEdges_intraEdges]
  unfold intraCellDescription
  rw [List.filter_flatMap]
  rw [flatMapCongr (g := fun r => [((r, 0), (r, 0))]) ?hper]
  · exact flatMapSingletonMap (List.range L.rows) (fun r => ((r, 0), (r, 0)))
  case hper =>
    intro r _
    rw [hcols]
    rw [show List.range 1 = [0] from rfl, List.flatMap_singleton]
    unfold cellNeighbors
    rw [hsh, hcols]
    by_cases hd : r + 1 < L.rows <;> simp [hd, List.filter_cons, Nat.succ_ne_self]

/-- Witness for C10 at the two-row single-column circle layer wCirc. -/
theorem c10_witness :
    wCirc.shape = "circle" ∧ wCirc.cols = 1 ∧
    (rightIndex wCirc.shape wCirc.cols 0 = 0 ∧
     (cellEdges (intraEdges (buildLayerNodes mTriv 4 0 wCirc)
         wCirc.shape wCirc.rows wCirc.cols)).filter (fun p => p.1 == p.2) =
       (List.range wCirc.rows).map (fun r => ((r, 0), (r, 0)))) :=
  ⟨rfl, rfl, c10_self_loops mTriv 4 0 wCirc rfl rfl⟩

/-- C8 counterexample: a 3x3 rectangle layer produces 12 intra-layer
outline edges (6 horizontal and 6 vertical), not 9 as claimed. -/
theorem c8_counterexample :
    (intraEdges (buildLayerNodes mTriv 4 0 wRect3)
        wRect3.shape wRect3.rows wRect3.cols).length = 12 ∧
    ¬ (intraEdges (buildLayerNodes mTriv 4 0 wRect3)
        wRect3.shape wRect3.rows wRect3.cols).length = 9 := by
  constructor
  · decide
  · decide

/-- C8 amended: a 3x3 layer produces exactly 12 intra-layer outline
edges for the rectangle shape (6 horizontal + 6 vertical), 15 for the
circle shape (9 ring + 6 radial) and 16 for the triangle shape
(6 + 6 + 4 diagonal); two consecutive 3x3 layers produce exactly
81 = min(81, cap + 1) inter-layer edges. -/
theorem c8_amended (m : MathModel) (zs : ℚ) (i j : Nat) (L1 L2 : MatrixLayer)
    (h1r : L1.rows = 3) (h1c : L1.cols = 3) (h2r : L2.rows = 3) (h2c : L2.cols = 3) :
    (L1.shape = "rectangle" →
      (intraEdges (buildLayerNodes m zs i L1) L1.shape L1.rows L1.cols).length = 12) ∧
    (L1.shape = "circle" →
      (intraEdges (buildLayerNodes m zs i L1) L1.shape L1.rows L1.cols).length = 15) ∧
    (L1.shape = "triangle" →
      (intraEdges (buildLayerNodes m zs i L1) L1.shape L1.rows L1.cols).length = 16) ∧
    (outerLoop 500 (buildLayerNodes m zs i L1) (buildLayerNodes m zs j L2)).length = 81 := by
  refine ⟨?_, ?_, ?_, ?_⟩
  · intro hsh
    rw [intraEdges_length]
    unfold intraCellDescription cellNeighbors
    rw [h1r, h1c, hsh]
    decide
  · intro hsh
    rw [intraEdges_length]
    unfold intraCellDescription cellNeighbors
    rw [h1r, h1c, hsh]
    decide
  · intro hsh
    rw [intraEdges_length]
    unfold intraCellDescription cellNeighbors
    rw [h1r, h1c, hsh]
    decide
  · rw [outerLoop_length, buildLayerNodes_length, buildLayerNodes_length,
      h1r, h1c, h2r, h2c]
    decide

/-- Witness for C8 amended at two 3x3 rectangle layers. -/
theorem c8_witness :
    wRect3.rows = 3 ∧ wRect3.cols = 3 ∧ wRect3.shape = "rectangle" ∧
    (intraEdges (buildLayerNodes mTriv 4 0 wRect3)
        wRect3.shape wRect3.rows wRect3.cols).length = 12 ∧
    (outerLoop 500 (buildLayerNodes mTriv 4 0 wRect3)
        (buildLayerNodes mTriv 4 1 wRect3)).length = 81 :=
  ⟨rfl, rfl, rfl,
    (c8_amended mTriv 4 0 1 wRect3 wRect3 rfl rfl rfl rfl).1 rfl,
    (c8_amended mTriv 4 0 1 wRect3 wRect3 rfl rfl rfl rfl).2.2.2⟩

/-- C4 (code evaluation): for a layer whose shape tag is outside the
recognized set, layout construction does not fail: the builder still
emits all rows times cols nodes, every one of them placed at the
origin x = y = 0, contradicting the required UnknownShapeTag failure. -/
theorem c4_unknown_shape_origin (m : MathModel) (zs : ℚ) (i : Nat) (L : MatrixLayer)
    (h1 : L.shape ≠ "rectangle") (h2 : L.shape ≠ "circle") (h3 : L.shape ≠ "triangle") :
    (buildLayerNodes m zs i L).length = L.rows * L.cols ∧
    ∀ n ∈ buildLayerNodes m zs i L, n.x = 0 ∧ n.y = 0 := by
  refine ⟨buildLayerNodes_length m zs i L, ?_⟩
  intro n hn
  obtain ⟨r, hr, c, hc, hn⟩ := mem_buildLayerNodes.mp hn
  subst hn
  simp [nodeAt, layoutXY, h1, h2, h3]

/-- Witness for C4 at the hexagon-tagged layer wHex. -/
theorem c4_witness :
    wHex.shape ≠ "rectangle" ∧ wHex.shape ≠ "circle" ∧ wHex.shape ≠ "triangle" ∧
    ((buildLayerNodes mTriv 4 0 wHex).length = wHex.rows * wHex.cols ∧
     ∀ n ∈ buildLayerNodes mTriv 4 0 wHex, n.x = 0 ∧ n.y = 0) :=
  ⟨by decide, by decide, by decide,
    c4_unknown_shape_origin mTriv 4 0 wHex (by decide) (by decide) (by decide)⟩

/-- C5 (code evaluation): the scene built by Graph3D is entirely
independent of the zSpacing value passed by the caller, and every node
of layer i has z = i * 4 with the hardcoded constant 4; so changing the
configured zSpacing changes nothing, and z does not track i * zSpacing
for any zSpacing other than 4. -/
theorem c5_zspacing_ignored (m : MathModel) (d : Graph3DData) (sl sn si : Bool)
    (zp zp' : ℚ) (i : Nat) (sc : Scene) (ns : List Node) (n : Node)
    (hsc : graph3DBuild m d sl sn si zp = some sc)
    (hns : sc.layerNodes[i]? = some ns) (hn : n ∈ ns) :
    graph3DBuild m d sl sn si zp = graph3DBuild m d sl sn si zp' ∧ n.z = (i : ℚ) * 4 := by
  refine ⟨rfl, ?_⟩
  unfold graph3DBuild at hsc
  by_cases h0 : d.layers.length = 0
  · rw [if_pos h0] at hsc
    exact absurd hsc (by simp)
  · rw [if_neg h0] at hsc
    have hsc' : buildScene m d sl sn si = sc := Option.some.inj hsc
    rw [← hsc'] at hns
    unfold buildScene at hns
    simp only [] at hns
    rw [buildAllLayerNodes_getElem?] at hns
    cases hL : d.layers[i]? with
    | none =>
      rw [hL] at hns
      simp at hns
    | some L =>
      rw [hL] at hns
      simp only [Option.map_some', Option.some.injEq] at hns
      rw [← hns] at hn
      obtain ⟨r, hr, c, hc, hn⟩ := mem_buildLayerNodes.mp hn
      subst hn
      simp [nodeAt]

/-- Witness for C5: with caller spacing 8 the build equals the build
with caller spacing 4, and the layer-1 node keeps z = 1 * 4, which is
not 8. -/
theorem c5_witness :
    ((graph3DBuild mTriv wData2 false false true 8 =
        graph3DBuild mTriv wData2 false false true 4) ∧
      (nodeAt mTriv 4 1 wLayerB 0 0).z = ((1 : Nat) : ℚ) * 4) ∧
    ((1 : Nat) : ℚ) * 4 ≠ 8 :=
  ⟨c5_zspacing_ignored mTriv wData2 false false true 8 4 1
      (buildScene mTriv wData2 false false true) (buildLayerNodes mTriv 4 1 wLayerB)
      (nodeAt mTriv 4 1 wLayerB 0 0) rfl rfl
      (mem_buildLayerNodes.mpr ⟨0, by decide, 0, by decide, rfl⟩),
    by norm_num⟩

/-- C6 (code evaluation): the data boundary converts a payload whose
layers are empty or missing into a structured error result with the
fixed message, but the scene builder, handed a graph with zero layers,
silently builds nothing: it returns no scene and no error value. -/
theorem c6_empty_layers_eval :
    processGASPayload { status := "success", data := some { layers := [] }, message := none } =
      { status := "error", data := none, message := some gasEmptyMessage } ∧
    processGASPayload { status := "success", data := none, message := none } =
      { status := "error", data := none, message := some gasEmptyMessage } ∧
    graph3DBuild mTriv { layers := [] } false false true 4 = none :=
  ⟨rfl, rfl, rfl⟩

/-- C7: for a circle-shaped layer, assuming the circle identity for
the modelled cosine and sine, the squared distance from the origin of
every node is ((r + 1) * 6/5)^2, hence all nodes of one row lie on one
radius, the radius grows strictly with the row index, and every ring,
the innermost row 0 included, has strictly positive radius. -/
theorem c7_circle_radii (m : MathModel)
    (hTrig : ∀ θ : ℚ, m.cos θ ^ 2 + m.sin θ ^ 2 = 1)
    (zs : ℚ) (i : Nat) (L : MatrixLayer) (hsh : L.shape = "circle")
    (n n' : Node) (hn : n ∈ buildLayerNodes m zs i L) (hn' : n' ∈ buildLayerNodes m zs i L) :
    n.x ^ 2 + n.y ^ 2 = (((n.r : ℚ) + 1) * (6 / 5)) ^ 2 ∧
    0 < n.x ^ 2 + n.y ^ 2 ∧
    (n.r = n'.r → n.x ^ 2 + n.y ^ 2 = n'.x ^ 2 + n'.y ^ 2) ∧
    (n.r < n'.r → n.x ^ 2 + n.y ^ 2 < n'.x ^ 2 + n'.y ^ 2) := by
  have key : ∀ q : Node, q ∈ buildLayerNodes m zs i L →
      q.x ^ 2 + q.y ^ 2 = (((q.r : ℚ) + 1) * (6 / 5)) ^ 2 := by
    intro q hq
    obtain ⟨r, hr, c, hc, hq⟩ := mem_buildLayerNodes.mp hq
    subst hq
    have hx : (nodeAt m zs i L r c).x =
        ((r : ℚ) + 1) * (6 / 5) * m.cos (2 * m.pi * (c : ℚ) / (L.cols : ℚ)) := by
      simp [nodeAt, layoutXY, hsh]
    have hy : (nodeAt m zs i L r c).y =
        ((r : ℚ) + 1) * (6 / 5) * m.sin (2 * m.pi * (c : ℚ) / (L.cols : ℚ)) := by
      simp [nodeAt, layoutXY, hsh]
    rw [hx, hy, nodeAt_r]
    have ht := hTrig (2 * m.pi * (c : ℚ) / (L.cols : ℚ))
    linear_combination (((r : ℚ) + 1) * (6 / 5)) ^ 2 * ht
  have k1 := key n hn
  have k2 := key n' hn'
  refine ⟨k1, ?_, ?_, ?_⟩
  · rw [k1]
    positivity
  · intro he
    rw [k1, k2, he]
  · intro hlt
    rw [k1, k2]
    have hle : (0 : ℚ) ≤ ((n.r : ℚ) + 1) * (6 / 5) := by positivity
    have hmono : ((n.r : ℚ) + 1) * (6 / 5) < ((n'.r : ℚ) + 1) * (6 / 5) := by
      have hcast : (n.r : ℚ) < (n'.r : ℚ) := Nat.cast_lt.mpr hlt
      nlinarith
    exact pow_lt_pow_left₀ hmono hle (by norm_num)

/-- Witness for C7 on the two-ring circle layer wCirc, comparing a
row-0 node with a row-1 node under the trivial model, whose constant
cosine 1 and sine 0 satisfy the circle identity. -/
theorem c7_witness :
    (∀ θ : ℚ, mTriv.cos θ ^ 2 + mTriv.sin θ ^ 2 = 1) ∧
    wCirc.shape = "circle" ∧
    ((nodeAt mTriv 4 0 wCirc 0 0).x ^ 2 + (nodeAt mTriv 4 0 wCirc 0 0).y ^ 2 =
        ((((nodeAt mTriv 4 0 wCirc 0 0).r : ℚ) + 1) * (6 / 5)) ^ 2 ∧
      0 < (nodeAt mTriv 4 0 wCirc 0 0).x ^ 2 + (nodeAt mTriv 4 0 wCirc 0 0).y ^ 2 ∧
      ((nodeAt mTriv 4 0 wCirc 0 0).r = (nodeAt mTriv 4 0 wCirc 1 0).r →
        (nodeAt mTriv 4 0 wCirc 0 0).x ^ 2 + (nodeAt mTriv 4 0 wCirc 0 0).y ^ 2 =
          (nodeAt mTriv 4 0 wCirc 1 0).x ^ 2 + (nodeAt mTriv 4 0 wCirc 1 0).y ^ 2) ∧
      ((nodeAt mTriv 4 0 wCirc 0 0).r < (nodeAt mTriv 4 0 wCirc 1 0).r →
        (nodeAt mTriv 4 0 wCirc 0 0).x ^ 2 + (nodeAt mTriv 4 0 wCirc 0 0).y ^ 2 <
          (nodeAt mTriv 4 0 wCirc 1 0).x ^ 2 + (nodeAt mTriv 4 0 wCirc 1 0).y ^ 2)) :=
  ⟨fun θ => by norm_num [mTriv], rfl,
    c7_circle_radii mTriv (fun θ => by norm_num [mTriv]) 4 0 wCirc rfl
      (nodeAt mTriv 4 0 wCirc 0 0) (nodeAt mTriv 4 0 wCirc 1 0)
      (mem_buildLayerNodes.mpr ⟨0, by decide, 0, by decide, rfl⟩)
      (mem_buildLayerNodes.mpr ⟨1, by decide, 0, by decide, rfl⟩)⟩

/-- C9: the scene build is a pure function of the graph and the
configuration snapshot: two builds from equal inputs return equal
scenes, with the same nodes and edges in the same order; the embedding
has no other inputs, mirroring the absence of randomness or hidden
state in the source. -/
theorem c9_deterministic (m : MathModel) (d d' : Graph3DData) (sl sl' sn sn' si si' : Bool)
    (zp zp' : ℚ) (hd : d = d') (hsl : sl = sl') (hsn : sn = sn') (hsi : si = si')
    (hzp : zp = zp') :
    graph3DBuild m d sl sn si zp = graph3DBuild m d' sl' sn' si' zp' := by
  subst hd
  subst hsl
  subst hsn
  subst hsi
  subst hzp
  rfl

/-- Witness for C9 at the concrete two-layer graph. -/
theorem c9_witness :
    graph3DBuild mTriv wData2 true true true 4 = graph3DBuild mTriv wData2 true true true 4 :=
  c9_deterministic mTriv wData2 wData2 true true true true true true 4 4 rfl rfl rfl rfl rfl
